import Mathlib

/-!
Verification of the inference-gateway logic of the llama-spark MCP plugin.

The development shallowly embeds the two Python modules
`src/mcp/llama_mcp_server.py` and `src/mcp/vllm_mcp_server.py`.
Python values that can flow through the code (parsed JSON, `dict.get`
results, payload fields) are modelled by the inductive type `Json`;
Python attribute/subscript errors that the code can raise are modelled by
`PyExc`; the outside world (state file, `/proc` entries, HTTP responses)
is an explicit environment record, and each tool function returns its
Python result (or escaped exception) together with the list of HTTP
calls it issued.
-/

namespace Gateway

/-- A Python value as produced by `json.loads` / passed through the code.
`num` models Python numbers (the integer part is all the program ever
branches on; no arithmetic is performed on numbers anywhere). -/
inductive Json where
  | null
  | bool (b : Bool)
  | num (n : Int)
  | str (s : String)
  | arr (elems : List Json)
  | obj (fields : List (String × Json))

/-- Python exceptions that can escape the embedded code: `AttributeError`
(calling `.get` on a non-dict), `TypeError` (subscripting / iterating a
non-subscriptable value), `KeyError` (indexing a dict with the integer 0;
carries `str(e)`), `IndexError` (indexing an empty sequence). -/
inductive PyExc where
  | attributeError
  | typeError
  | keyError (msg : String)
  | indexError
deriving DecidableEq, Repr

/-- Python truthiness (`bool(x)`) of a `Json` value. -/
def Json.truthy : Json → Bool
  | .null => false
  | .bool b => b
  | .num n => n != 0
  | .str s => s != ""
  | .arr xs => !xs.isEmpty
  | .obj kvs => !kvs.isEmpty

/-- Python `x.get(key, default)`: succeeds on a dict, raises
`AttributeError` on every other value (none of them has a `.get`). -/
def Json.pyget (j : Json) (k : String) (d : Json) : Except PyExc Json :=
  match j with
  | .obj kvs => .ok ((kvs.lookup k).getD d)
  | _ => .error .attributeError

/-- Total variant of `pyget` for stating theorems about dict-shaped
values: on a dict it is `dict.get(key, default)`, on anything else it
returns the default. -/
def Json.getD (j : Json) (k : String) (d : Json) : Json :=
  match j with
  | .obj kvs => (kvs.lookup k).getD d
  | _ => d

/-- `j` is a Python dict. -/
def Json.isObj : Json → Bool
  | .obj _ => true
  | _ => false

/-- Python `x[0]` as it can occur in the embedded code: first element of a
list, first character of a string, `KeyError(0)` on a dict (JSON object
keys are strings, so the integer key 0 is never present; `str(KeyError(0))`
is `"0"`), `TypeError` on non-subscriptable values. -/
def Json.sub0 : Json → Except PyExc Json
  | .arr [] => .error .indexError
  | .arr (x :: _) => .ok x
  | .str s =>
    match s.data with
    | [] => .error .indexError
    | c :: _ => .ok (.str (String.singleton c))
  | .obj _ => .error (.keyError "0")
  | .null => .error .typeError
  | .bool _ => .error .typeError
  | .num _ => .error .typeError

/-- Python `pat in s` for strings: `pat` occurs as a contiguous substring
of `s`. -/
def strContains (s pat : String) : Bool := decide (pat.data <:+: s.data)

/-- Python `repr` of a `Json` value (string escaping inside `repr` of a
string is abstracted: quotes are added, the characters are kept as-is). -/
def pyRepr : Json → String
  | .null => "None"
  | .bool true => "True"
  | .bool false => "False"
  | .num n => toString n
  | .str s => "\x27" ++ s ++ "\x27"
  | .arr xs => "[" ++ String.intercalate ", " (xs.attach.map (fun e => pyRepr e.1)) ++ "]"
  | .obj kvs =>
    "\x7b" ++ String.intercalate ", "
      (kvs.attach.map (fun kv => "\x27" ++ kv.1.1 ++ "\x27: " ++ pyRepr kv.1.2)) ++ "\x7d"
termination_by j => sizeOf j
decreasing_by
  · have h := List.sizeOf_lt_of_mem e.2
    simp only [Json.arr.sizeOf_spec]
    omega
  · have h := List.sizeOf_lt_of_mem kv.2
    have h2 : sizeOf kv.1.2 < sizeOf kv.1 := by
      cases kv1 : kv.1
      simp only [kv1, Prod.mk.sizeOf_spec]
      omega
    simp only [Json.obj.sizeOf_spec]
    omega

/-- Python `str` of a `Json` value (as interpolated by an f-string):
identity on strings, `repr` rendering on everything else. -/
def pyStr : Json → String
  | .str s => s
  | .null => "None"
  | .bool true => "True"
  | .bool false => "False"
  | .num n => toString n
  | .arr xs => pyRepr (.arr xs)
  | .obj kvs => pyRepr (.obj kvs)

/-- Serialization by `json.dumps` (the `indent=2` whitespace layout of the
source is abstracted to single-line output; no claim inspects it). -/
def Json.dumps : Json → String
  | .null => "null"
  | .bool true => "true"
  | .bool false => "false"
  | .num n => toString n
  | .str s => "\x22" ++ s ++ "\x22"
  | .arr xs => "[" ++ String.intercalate ", " (xs.attach.map (fun e => Json.dumps e.1)) ++ "]"
  | .obj kvs =>
    "\x7b" ++ String.intercalate ", "
      (kvs.attach.map (fun kv => "\x22" ++ kv.1.1 ++ "\x22: " ++ Json.dumps kv.1.2)) ++ "\x7d"
termination_by j => sizeOf j
decreasing_by
  · have h := List.sizeOf_lt_of_mem e.2
    simp only [Json.arr.sizeOf_spec]
    omega
  · have h := List.sizeOf_lt_of_mem kv.2
    have h2 : sizeOf kv.1.2 < sizeOf kv.1 := by
      cases kv1 : kv.1
      simp only [kv1, Prod.mk.sizeOf_spec]
      omega
    simp only [Json.obj.sizeOf_spec]
    omega

/-- A Python dict with string keys, as the tool signatures -- validated by
the MCP framework -- guarantee for each element of `messages`. -/
abbrev PyDict := List (String × Json)

/-- `m.get(key, default)` on a dict that is statically known to be a dict. -/
def PyDict.get (m : PyDict) (k : String) (d : Json) : Json := (m.lookup k).getD d

/-! ## The outside world: `/proc`, the state file, HTTP -/

/-- Outcome of looking at `/proc/{pid}/cmdline` for the pid value found in
the state file: the path does not exist, an `OSError` was raised while
checking or reading it, or its content was read. -/
inductive ProcLookup where
  | missing
  | readError
  | cmdline (s : String)

/-- An HTTP response as `httpx` delivers it: status code, `content-type`
header, body text, and the outcome of `resp.json()` (`.error msg` models a
`json.JSONDecodeError` whose `str` is `msg`). -/
structure HttpResponse where
  status : Nat
  contentType : String
  text : String
  body : Except String Json

/-- Outcome of one HTTP request: `httpx.TimeoutException` (carrying its
`str`), another `httpx.RequestError` (carrying its `str`), or a response.
In `httpx`, `TimeoutException` is a subclass of `RequestError`, so an
`except RequestError` clause also catches timeouts. -/
inductive HttpResult where
  | timeout (msg : String)
  | requestError (msg : String)
  | success (resp : HttpResponse)

/-- `raise_for_status()` raises `httpx.HTTPStatusError` exactly when the
status is not a 2xx success status. -/
def is2xx (n : Nat) : Bool := 200 ≤ n && n < 300

/-- Environment of one llama.cpp-path tool invocation: the state file, the
`/proc` table (keyed by the pid value taken from the state file), and the
result each HTTP request would have (at most one request is issued per
invocation). -/
structure LlamaEnv where
  stateFileExists : Bool
  stateFileRead : Except String Json
  proc : Json → ProcLookup
  healthResult : HttpResult
  chatResult : HttpResult
  compResult : HttpResult

/-- Environment of one vLLM-path tool invocation: the configured
`VLLM_URL` and the result each HTTP request would have. -/
structure VllmEnv where
  url : String
  modelsResult : HttpResult
  chatResult : HttpResult
  compResult : HttpResult

/-! ## Request payloads and the HTTP-call trace -/

/-- Payload POSTed to `/v1/chat/completions` (`model` is present only on
the vLLM path). -/
structure ChatPayload where
  model : Option Json
  messages : List PyDict
  temperature : Json
  max_tokens : Json
  stream : Bool

/-- Payload POSTed to llama.cpp's native `/completion` endpoint
(`stop` is present only when the `stop` argument is truthy). -/
structure LlamaCompPayload where
  prompt : String
  temperature : Json
  n_predict : Json
  stream : Bool
  stop : Option (List String)

/-- Payload POSTed to vLLM's `/v1/completions` endpoint. -/
structure VllmCompPayload where
  model : Json
  prompt : String
  temperature : Json
  max_tokens : Json
  stream : Bool
  stop : Option (List String)

/-- One HTTP request issued by the embedded code, with its full payload. -/
inductive HttpCall where
  | getHealth (url : String)
  | getModels (url : String)
  | postChat (url : String) (payload : ChatPayload)
  | postLlamaComp (url : String) (payload : LlamaCompPayload)
  | postVllmComp (url : String) (payload : VllmCompPayload)

/-! ## Literal strings produced by the code -/

/-- `llama_chat` / `llama_complete`, state invalid. -/
def llamaNotRunningToolMsg : String :=
  "Error: llama-server is not running. Use /llama:serve to start it."

/-- `llama_status`, state invalid. -/
def llamaNotRunningStatusMsg : String :=
  "llama-server is not running. Use /llama:serve to start it."

/-- `_get_base_url`, host outside the allow-set (f-string interpolating
the host value). -/
def hostRejectedMsg (host : Gateway.Json) : String :=
  "Error: Host \x27" ++ pyStr host ++ "\x27 not allowed. Only loopback addresses permitted."

/-- Timeout message of the four generation tools; `DEFAULT_TIMEOUT` is the
float `120.0`, so the f-string renders `120.0`. -/
def timeoutErrorMsg : String :=
  "Error: Request timed out after 120.0s. Model may be overloaded."

/-- `httpx.HTTPStatusError` branch: status code and body truncated to 500
characters. -/
def httpStatusErrorMsg (status : Nat) (text : String) : String :=
  "Error: HTTP " ++ toString status ++ " - " ++ text.take 500

/-- `httpx.RequestError` branch of `llama_chat` / `llama_complete`. -/
def llamaConnectErrorMsg (url msg : String) : String :=
  "Error: Could not connect to llama-server at " ++ url ++ ": " ++ msg

/-- `json.JSONDecodeError` / `KeyError` branch of `llama_chat` /
`llama_complete`. -/
def llamaInvalidResponseMsg (msg : String) : String :=
  "Error: Invalid response from llama-server: " ++ msg

/-- `httpx.RequestError` branch of `vllm_chat` / `vllm_complete`. -/
def vllmConnectErrorMsg (url msg : String) : String :=
  "Error: Could not connect to vLLM at " ++ url ++ ": " ++ msg

/-- `json.JSONDecodeError` / `KeyError` branch of `vllm_chat` /
`vllm_complete`. -/
def vllmInvalidResponseMsg (msg : String) : String :=
  "Error: Invalid response from vLLM: " ++ msg

/-- Empty `choices` outcome of the chat/completion extractors. -/
def noResponseMsg : String := "Error: No response from model"

/-- `vllm_chat` / `vllm_complete` when no model could be resolved. -/
def vllmNoModelsMsg (url : String) : String :=
  "Error: vLLM server at " ++ url ++ " has no models available."

/-- `vllm_status` when `_get_models` came back empty. -/
def vllmStatusDownMsg (url : String) : String :=
  "vLLM server at " ++ url ++ " is not responding or has no models loaded."

/-- `llama_status` when the health probe raised a `RequestError`. -/
def llamaStatusNotRespondingMsg (msg : String) : String :=
  "llama-server state exists but not responding: " ++ msg

/-- `llama_status` when the health probe returned a non-200 status. -/
def llamaHealthFailedMsg : String := "llama-server health check failed"

/-! ## `llama_mcp_server.py` -/

/-- `ALLOWED_HOSTS` (llama_mcp_server.py line 18). -/
def ALLOWED_HOSTS : List String := ["127.0.0.1", "localhost", "0.0.0.0", "::1"]

/-- Python `host in ALLOWED_HOSTS` on the frozenset of line 18: set
membership hashes the candidate first, so an unhashable value (a list or
a dict) raises `TypeError`; hashable non-strings hash fine but equal no
member; a string is a member exactly when it equals one of the four. -/
def hostInAllowedHosts : Json → Except PyExc Bool
  | .str s => .ok (ALLOWED_HOSTS.contains s)
  | .arr _ => .error .typeError
  | .obj _ => .error .typeError
  | .null => .ok false
  | .bool _ => .ok false
  | .num _ => .ok false

/-- `_read_state` (llama_mcp_server.py lines 23-48).  Absent file,
unparsable content (`json.JSONDecodeError` / `OSError`), falsy `pid`,
missing `/proc` entry, `OSError` during the `/proc` inspection, and a
command line without `"llama-server"` all yield `None`; `state.get` on a
non-dict parse raises `AttributeError`, which nothing catches. -/
def read_state (env : LlamaEnv) : Except PyExc (Option Json) :=
  if env.stateFileExists then
    match env.stateFileRead with
    | .error _ => .ok none
    | .ok state =>
      match state.pyget "pid" .null with
      | .error e => .error e
      | .ok pid =>
        if pid.truthy then
          match env.proc pid with
          | .missing => .ok none
          | .readError => .ok none
          | .cmdline c =>
            if strContains c "llama-server" then .ok (some state) else .ok none
        else .ok none
  else .ok none

/-- `_get_base_url` (llama_mcp_server.py lines 51-64): defaults
`host=127.0.0.1`, `port=30000`, rejects hosts whose frozenset membership
test evaluates to false with an error message, otherwise builds
`http://{host}:{port}`.  The membership test itself can raise `TypeError`
on an unhashable host value, and no `try` in this module catches it. -/
def get_base_url (state : Json) : Except PyExc (String × Option String) :=
  match state.pyget "host" (.str "127.0.0.1") with
  | .error e => .error e
  | .ok host =>
    match state.pyget "port" (.num 30000) with
    | .error e => .error e
    | .ok port =>
      match hostInAllowedHosts host with
      | .error e => .error e
      | .ok b =>
        if b then
          .ok ("http://" ++ pyStr host ++ ":" ++ pyStr port, none)
        else
          .ok ("", some (hostRejectedMsg host))

/-- Python `messages[0].get("role") != "system"` is false exactly when the
value under `"role"` is the string `"system"`. -/
def isSystemRole : Json → Bool
  | .str s => s == "system"
  | _ => false

/-- `not messages or messages[0].get("role") != "system"`. -/
def needsSystemPrompt : List PyDict → Bool
  | [] => true
  | m :: _ => !isSystemRole (m.get "role" .null)

/-- The system-prompt merge shared verbatim by `llama_chat` (lines
135-137) and `vllm_chat` (lines 99-101): prepend a fresh system message
by list concatenation when `system_prompt` is truthy (a non-empty string)
and the first message is not system-role; otherwise use the caller's list
unchanged. -/
def mergeSystemPrompt (sp : Option String) (messages : List PyDict) : List PyDict :=
  match sp with
  | none => messages
  | some s =>
    if s == "" then messages
    else if needsSystemPrompt messages then
      [("role", Json.str "system"), ("content", Json.str s)] :: messages
    else messages

/-- Shared body of the chat-response extraction (llama lines 156-164,
vllm lines 121-129): `data.get("choices", [])`, the empty-choices early
return, `choices[0].get("message", {}).get("content", "")`. -/
def extractChatContent (data : Json) : Except PyExc Json := do
  let choices ← data.pyget "choices" (.arr [])
  if choices.truthy then do
    let first ← choices.sub0
    let message ← first.pyget "message" (.obj [])
    message.pyget "content" (.str "")
  else
    .ok (.str noResponseMsg)

/-- The `except (json.JSONDecodeError, KeyError)` clause of the llama
tools: a `KeyError` becomes the invalid-response string, every other
exception (notably `AttributeError`) escapes. -/
def llamaCatchInvalid : Except PyExc Json → Except PyExc Json
  | .error (.keyError m) => .ok (.str (llamaInvalidResponseMsg m))
  | r => r

/-- Same clause in the vLLM tools. -/
def vllmCatchInvalid : Except PyExc Json → Except PyExc Json
  | .error (.keyError m) => .ok (.str (vllmInvalidResponseMsg m))
  | r => r

/-- `llama_status` (llama_mcp_server.py lines 67-100).  Result is the
returned Python value (or escaped exception) paired with the HTTP calls
issued. -/
def llama_status (env : LlamaEnv) : Except PyExc Json × List HttpCall :=
  match read_state env with
  | .error e => (.error e, [])
  | .ok none => (.ok (.str llamaNotRunningStatusMsg), [])
  | .ok (some state) =>
    if state.truthy then
      match get_base_url state with
      | .error e => (.error e, [])
      | .ok (_, some err) => (.ok (.str err), [])
      | .ok (base_url, none) =>
        let call := HttpCall.getHealth (base_url ++ "/health")
        match env.healthResult with
        | .timeout m => (.ok (.str (llamaStatusNotRespondingMsg m)), [call])
        | .requestError m => (.ok (.str (llamaStatusNotRespondingMsg m)), [call])
        | .success resp =>
          if resp.status == 200 then
            let health : Json :=
              if resp.contentType.startsWith "application/json" then
                match resp.body with
                | .ok d => d
                | .error _ => .str "ok (parse error)"
              else .str "ok"
            match state.pyget "model" (.str "unknown") with
            | .error e => (.error e, [call])
            | .ok modelVal =>
              match state.pyget "port" .null with
              | .error e => (.error e, [call])
              | .ok portVal =>
                match state.pyget "started_at" .null with
                | .error e => (.error e, [call])
                | .ok startedVal =>
                  (.ok (.str (Json.dumps (.obj
                    [("status", .str "running"), ("model", modelVal),
                     ("port", portVal), ("started_at", startedVal),
                     ("health", health)]))), [call])
          else (.ok (.str llamaHealthFailedMsg), [call])
    else (.ok (.str llamaNotRunningStatusMsg), [])

/-- `llama_chat` (llama_mcp_server.py lines 103-173). -/
def llama_chat (env : LlamaEnv) (messages : List PyDict)
    (temperature max_tokens : Json) (system_prompt : Option String) :
    Except PyExc Json × List HttpCall :=
  match read_state env with
  | .error e => (.error e, [])
  | .ok none => (.ok (.str llamaNotRunningToolMsg), [])
  | .ok (some state) =>
    if state.truthy then
      match get_base_url state with
      | .error e => (.error e, [])
      | .ok (_, some err) => (.ok (.str err), [])
      | .ok (base_url, none) =>
        let msgs := mergeSystemPrompt system_prompt messages
        let payload : ChatPayload :=
          { model := none, messages := msgs, temperature := temperature,
            max_tokens := max_tokens, stream := false }
        let call := HttpCall.postChat (base_url ++ "/v1/chat/completions") payload
        match env.chatResult with
        | .timeout _ => (.ok (.str timeoutErrorMsg), [call])
        | .requestError m => (.ok (.str (llamaConnectErrorMsg base_url m)), [call])
        | .success resp =>
          if is2xx resp.status then
            match resp.body with
            | .error m => (.ok (.str (llamaInvalidResponseMsg m)), [call])
            | .ok data => (llamaCatchInvalid (extractChatContent data), [call])
          else (.ok (.str (httpStatusErrorMsg resp.status resp.text)), [call])
    else (.ok (.str llamaNotRunningToolMsg), [])

/-- `if stop:` -- a `stop` list is added to the payload only when truthy
(present and non-empty). -/
def truthyStop : Option (List String) → Option (List String)
  | none => none
  | some l => if l.isEmpty then none else some l

/-- `llama_complete` (llama_mcp_server.py lines 176-233): native
`/completion` endpoint, `n_predict` field, extraction
`data.get("content", "")` (an `AttributeError` on a non-dict body
escapes). -/
def llama_complete (env : LlamaEnv) (prompt : String)
    (temperature max_tokens : Json) (stop : Option (List String)) :
    Except PyExc Json × List HttpCall :=
  match read_state env with
  | .error e => (.error e, [])
  | .ok none => (.ok (.str llamaNotRunningToolMsg), [])
  | .ok (some state) =>
    if state.truthy then
      match get_base_url state with
      | .error e => (.error e, [])
      | .ok (_, some err) => (.ok (.str err), [])
      | .ok (base_url, none) =>
        let payload : LlamaCompPayload :=
          { prompt := prompt, temperature := temperature,
            n_predict := max_tokens, stream := false, stop := truthyStop stop }
        let call := HttpCall.postLlamaComp (base_url ++ "/completion") payload
        match env.compResult with
        | .timeout _ => (.ok (.str timeoutErrorMsg), [call])
        | .requestError m => (.ok (.str (llamaConnectErrorMsg base_url m)), [call])
        | .success resp =>
          if is2xx resp.status then
            match resp.body with
            | .error m => (.ok (.str (llamaInvalidResponseMsg m)), [call])
            | .ok data => (llamaCatchInvalid (data.pyget "content" (.str "")), [call])
          else (.ok (.str (httpStatusErrorMsg resp.status resp.text)), [call])
    else (.ok (.str llamaNotRunningToolMsg), [])

/-! ## `vllm_mcp_server.py`

The module-level `_model_cache` is threaded explicitly: each function
takes the cache before the call and returns it after.  Results are
`(returned value or escaped exception, cache after, HTTP calls issued)`. -/

/-- `_get_models` (vllm_mcp_server.py lines 24-36).  On `RequestError`
(timeouts included) or `json.JSONDecodeError` the `except` clause turns
the call into `[]` and the cache is untouched; on a 200 response with a
parsable body the cache is overwritten with the full response *before*
`data.get("data", [])` is evaluated (so an `AttributeError` on a
non-dict body escapes with the cache already overwritten). -/
def get_models (env : VllmEnv) (cache : Option Json) :
    Except PyExc Json × Option Json × List HttpCall :=
  let call := HttpCall.getModels (env.url ++ "/v1/models")
  match env.modelsResult with
  | .timeout _ => (.ok (.arr []), cache, [call])
  | .requestError _ => (.ok (.arr []), cache, [call])
  | .success resp =>
    if resp.status == 200 then
      match resp.body with
      | .error _ => (.ok (.arr []), cache, [call])
      | .ok data =>
        match data.pyget "data" (.arr []) with
        | .error e => (.error e, some data, [call])
        | .ok models => (.ok models, some data, [call])
    else (.ok (.arr []), cache, [call])

/-- `_get_default_model` (vllm_mcp_server.py lines 39-44):
`models[0].get("id")` when `models` is truthy (one-argument `get`, so the
default is `None`), else `None`.  No `try` surrounds it, so a `TypeError`
/ `KeyError` / `AttributeError` from indexing a non-list or a non-dict
element escapes. -/
def get_default_model (env : VllmEnv) (cache : Option Json) :
    Except PyExc Json × Option Json × List HttpCall :=
  match get_models env cache with
  | (.error e, c, t) => (.error e, c, t)
  | (.ok models, c, t) =>
    if models.truthy then
      match models.sub0 with
      | .error e => (.error e, c, t)
      | .ok m =>
        match m.pyget "id" .null with
        | .error e => (.error e, c, t)
        | .ok v => (.ok v, c, t)
    else (.ok .null, c, t)

/-- The list comprehension `[m.get("id", "unknown") for m in models]` of
`vllm_status` over an arbitrary truthy Python value: iterating a string
or a dict yields strings (no `.get`, `AttributeError`), iterating a
number or bool raises `TypeError`. -/
def mapGetId : Json → Except PyExc (List Json)
  | .arr xs => xs.mapM (fun m => m.pyget "id" (.str "unknown"))
  | .str _ => .error .attributeError
  | .obj _ => .error .attributeError
  | .null => .error .typeError
  | .bool _ => .error .typeError
  | .num _ => .error .typeError

/-- `vllm_status` (vllm_mcp_server.py lines 47-64). -/
def vllm_status (env : VllmEnv) (cache : Option Json) :
    Except PyExc Json × Option Json × List HttpCall :=
  match get_models env cache with
  | (.error e, c, t) => (.error e, c, t)
  | (.ok models, c, t) =>
    if models.truthy then
      match mapGetId models with
      | .error e => (.error e, c, t)
      | .ok model_list =>
        let defaultModel : Json := match model_list with
          | [] => .null
          | v :: _ => v
        (.ok (.str (Json.dumps (.obj
          [("status", .str "running"), ("url", .str env.url),
           ("models", .arr model_list), ("default_model", defaultModel)]))), c, t)
    else (.ok (.str (vllmStatusDownMsg env.url)), c, t)

/-- Truthiness of the `model: str | None` tool argument. -/
def strTruthy : Option String → Bool
  | none => false
  | some s => s != ""

/-- Model resolution shared by `vllm_chat` and `vllm_complete` (lines
93-97 and 162-166): keep a truthy caller-supplied model, otherwise call
`_get_default_model` and fail with the no-models message when the result
is falsy.  Returns the resolved model as an `Except`-of-`Except`: the
outer layer is an escaped exception, `.inl msg` an early error return,
`.inr m` success. -/
def resolveModel (env : VllmEnv) (cache : Option Json) (model : Option String) :
    Except PyExc (String ⊕ Json) × Option Json × List HttpCall :=
  match model with
  | some s =>
    if s == "" then
      match get_default_model env cache with
      | (.error e, c, t) => (.error e, c, t)
      | (.ok v, c, t) =>
        if v.truthy then (.ok (.inr v), c, t)
        else (.ok (.inl (vllmNoModelsMsg env.url)), c, t)
    else (.ok (.inr (.str s)), cache, [])
  | none =>
    match get_default_model env cache with
    | (.error e, c, t) => (.error e, c, t)
    | (.ok v, c, t) =>
      if v.truthy then (.ok (.inr v), c, t)
      else (.ok (.inl (vllmNoModelsMsg env.url)), c, t)

/-- `vllm_chat` (vllm_mcp_server.py lines 67-138). -/
def vllm_chat (env : VllmEnv) (cache : Option Json) (messages : List PyDict)
    (temperature max_tokens : Json) (system_prompt : Option String)
    (model : Option String) :
    Except PyExc Json × Option Json × List HttpCall :=
  match resolveModel env cache model with
  | (.error e, c, t) => (.error e, c, t)
  | (.ok (.inl msg), c, t) => (.ok (.str msg), c, t)
  | (.ok (.inr modelVal), c, t) =>
    let msgs := mergeSystemPrompt system_prompt messages
    let payload : ChatPayload :=
      { model := some modelVal, messages := msgs, temperature := temperature,
        max_tokens := max_tokens, stream := false }
    let call := HttpCall.postChat (env.url ++ "/v1/chat/completions") payload
    match env.chatResult with
    | .timeout _ => (.ok (.str timeoutErrorMsg), c, t ++ [call])
    | .requestError m => (.ok (.str (vllmConnectErrorMsg env.url m)), c, t ++ [call])
    | .success resp =>
      if is2xx resp.status then
        match resp.body with
        | .error m => (.ok (.str (vllmInvalidResponseMsg m)), c, t ++ [call])
        | .ok data => (vllmCatchInvalid (extractChatContent data), c, t ++ [call])
      else (.ok (.str (httpStatusErrorMsg resp.status resp.text)), c, t ++ [call])

/-- Extraction of `vllm_complete` (lines 188-193): like the chat
extraction but reading `choices[0].get("text", "")`. -/
def extractCompText (data : Json) : Except PyExc Json := do
  let choices ← data.pyget "choices" (.arr [])
  if choices.truthy then do
    let first ← choices.sub0
    first.pyget "text" (.str "")
  else
    .ok (.str noResponseMsg)

/-- `vllm_complete` (vllm_mcp_server.py lines 141-202). -/
def vllm_complete (env : VllmEnv) (cache : Option Json) (prompt : String)
    (temperature max_tokens : Json) (stop : Option (List String))
    (model : Option String) :
    Except PyExc Json × Option Json × List HttpCall :=
  match resolveModel env cache model with
  | (.error e, c, t) => (.error e, c, t)
  | (.ok (.inl msg), c, t) => (.ok (.str msg), c, t)
  | (.ok (.inr modelVal), c, t) =>
    let payload : VllmCompPayload :=
      { model := modelVal, prompt := prompt, temperature := temperature,
        max_tokens := max_tokens, stream := false, stop := truthyStop stop }
    let call := HttpCall.postVllmComp (env.url ++ "/v1/completions") payload
    match env.compResult with
    | .timeout _ => (.ok (.str timeoutErrorMsg), c, t ++ [call])
    | .requestError m => (.ok (.str (vllmConnectErrorMsg env.url m)), c, t ++ [call])
    | .success resp =>
      if is2xx resp.status then
        match resp.body with
        | .error m => (.ok (.str (vllmInvalidResponseMsg m)), c, t ++ [call])
        | .ok data => (vllmCatchInvalid (extractCompText data), c, t ++ [call])
      else (.ok (.str (httpStatusErrorMsg resp.status resp.text)), c, t ++ [call])

/-! ## Helper lemmas -/

/-- A state successfully returned by `_read_state` is a dict that passed
the truthy-`pid` check, so it is truthy and dict-shaped. -/
theorem read_state_valid (env : LlamaEnv) (s : Json)
    (h : read_state env = .ok (some s)) : s.truthy = true ∧ s.isObj = true := by
  unfold read_state at h
  by_cases hex : env.stateFileExists = true
  · rw [if_pos hex] at h
    rcases henv : env.stateFileRead with msg | state <;> rw [henv] at h
    · simp at h
    · cases state with
      | obj kvs =>
        cases kvs with
        | nil => simp [Json.pyget, List.lookup, Json.truthy] at h
        | cons a l =>
          simp only [Json.pyget] at h
          split at h
          · split at h
            · simp at h
            · simp at h
            · split at h
              · rw [Except.ok.injEq, Option.some.injEq] at h
                subst h; exact ⟨by simp [Json.truthy], rfl⟩
              · simp at h
          · simp at h
      | null => simp [Json.pyget] at h
      | bool b => simp [Json.pyget] at h
      | num n => simp [Json.pyget] at h
      | str t => simp [Json.pyget] at h
      | arr xs => simp [Json.pyget] at h
  · rw [if_neg hex] at h; simp at h

/-- On a dict, `pyget` succeeds and computes `getD`. -/
theorem pyget_obj (j : Json) (hj : j.isObj = true) (k : String) (d : Json) :
    j.pyget k d = .ok (j.getD k d) := by
  cases j <;> first | rfl | simp [Json.isObj] at hj

/-- A string built around `x` contains `x` as a substring. -/
theorem strContains_append (a x b : String) : strContains (a ++ x ++ b) x = true := by
  unfold strContains
  rw [decide_eq_true_eq]
  exact ⟨a.data, b.data, by simp⟩

/-- The host-rejection message contains the rendered host verbatim. -/
theorem hostRejectedMsg_contains (host : Json) :
    strContains (hostRejectedMsg host) (pyStr host) = true :=
  strContains_append _ _ _

/-- The caller's message list is always a suffix of the merged list. -/
theorem mergeSystemPrompt_suffix (sp : Option String) (messages : List PyDict) :
    messages <:+ mergeSystemPrompt sp messages := by
  unfold mergeSystemPrompt
  rcases sp with _ | s
  · exact List.suffix_refl _
  · dsimp only
    split
    · exact List.suffix_refl _
    · split
      · exact List.suffix_cons _ _
      · exact List.suffix_refl _

/-! ## Claim C1: non-loopback hosts are rejected and nothing is sent -/

/-- C1 amended: for every ServerState whose `host` field the frozenset
membership test evaluates to not-a-member (every hashable value outside
the allow-set: any non-allowed string, and any number, bool or null --
but not an unhashable array or dict, where the test itself raises
`TypeError`), `_get_base_url` returns the host-rejected outcome, its
message contains the rejected host verbatim (as rendered by the
f-string), and each of `llama_status`, `llama_chat`, `llama_complete`
returns exactly that error string while issuing no HTTP call. -/
theorem claim1_host_rejected (state : Json) (hobj : state.isObj = true)
    (hhost : hostInAllowedHosts (state.getD "host" (.str "127.0.0.1")) = .ok false) :
    get_base_url state =
      .ok ("", some (hostRejectedMsg (state.getD "host" (.str "127.0.0.1")))) ∧
    strContains (hostRejectedMsg (state.getD "host" (.str "127.0.0.1")))
      (pyStr (state.getD "host" (.str "127.0.0.1"))) = true ∧
    ∀ (env : LlamaEnv) (messages : List PyDict) (t mt : Json)
      (sp : Option String) (prompt : String) (stop : Option (List String)),
      read_state env = .ok (some state) →
      llama_status env =
        (.ok (.str (hostRejectedMsg (state.getD "host" (.str "127.0.0.1")))), []) ∧
      llama_chat env messages t mt sp =
        (.ok (.str (hostRejectedMsg (state.getD "host" (.str "127.0.0.1")))), []) ∧
      llama_complete env prompt t mt stop =
        (.ok (.str (hostRejectedMsg (state.getD "host" (.str "127.0.0.1")))), []) := by
  have hbase : get_base_url state =
      .ok ("", some (hostRejectedMsg (state.getD "host" (.str "127.0.0.1")))) := by
    unfold get_base_url
    rw [pyget_obj state hobj, pyget_obj state hobj]
    simp [hhost]
  refine ⟨hbase, hostRejectedMsg_contains _, ?_⟩
  intro env messages t mt sp prompt stop hread
  have htruthy := (read_state_valid env state hread).1
  refine ⟨?_, ?_, ?_⟩
  · simp [llama_status, hread, htruthy, hbase]
  · simp [llama_chat, hread, htruthy, hbase]
  · simp [llama_complete, hread, htruthy, hbase]

/-- A tampered state file pointing at a non-loopback host. -/
def stateEvil : Json := Json.obj [("pid", Json.num 1234), ("host", Json.str "evil.example")]

/-- A `/proc` table in which every pid maps to a llama-server command
line. -/
def procLlama : Json → ProcLookup :=
  fun _ => ProcLookup.cmdline "/usr/bin/llama-server --port 30000"

/-- Environment whose state file holds `stateEvil`. -/
def envEvil : LlamaEnv :=
  { stateFileExists := true, stateFileRead := .ok stateEvil, proc := procLlama,
    healthResult := .timeout "t", chatResult := .timeout "t", compResult := .timeout "t" }

/-- C1 witness: the concrete tampered state `stateEvil` is rejected with a
message naming `evil.example`, and `llama_chat` surfaces it without any
HTTP call. -/
theorem claim1_witness :
    get_base_url stateEvil =
      .ok ("", some (hostRejectedMsg (Json.str "evil.example"))) ∧
    strContains (hostRejectedMsg (Json.str "evil.example")) "evil.example" = true ∧
    llama_chat envEvil [] Json.null Json.null none =
      (.ok (.str (hostRejectedMsg (Json.str "evil.example"))), []) := by
  have h := claim1_host_rejected stateEvil rfl rfl
  exact ⟨h.1, h.2.1, (h.2.2 envEvil [] Json.null Json.null none "" none rfl).2.1⟩

/-- A tampered state whose `host` field is the JSON array `[]`: not a
member of the allow-set, but not hashable either. -/
def stateArrHost : Json := Json.obj [("pid", Json.num 1234), ("host", Json.arr [])]

/-- Environment whose state file holds `stateArrHost`. -/
def envArrHost : LlamaEnv :=
  { stateFileExists := true, stateFileRead := .ok stateArrHost, proc := procLlama,
    healthResult := .timeout "t", chatResult := .timeout "t", compResult := .timeout "t" }

/-- C1 is false as stated: the array host `[]` is not a member of the
allow-set, yet `_get_base_url` returns no HostRejected outcome there --
`host not in ALLOWED_HOSTS` hashes the candidate, so the unhashable value
raises a `TypeError` that no `except` clause catches, and the escaped
exception (not an error string) is what `llama_chat` yields. -/
theorem claim1_counterexample :
    get_base_url stateArrHost = .error .typeError ∧
    llama_chat envArrHost [] Json.null Json.null none = (.error .typeError, []) ∧
    ∀ s : String, get_base_url stateArrHost ≠ .ok ("", some s) := by
  refine ⟨rfl, rfl, ?_⟩
  intro s h
  have h1 : (Except.error PyExc.typeError : Except PyExc (String × Option String)) =
      .ok ("", some s) := h
  exact Except.noConfusion h1

/-! ## Claim C2: `_read_state` on arbitrary state-file content -/

/-- Environment whose state file exists and holds `[]`: valid JSON, so
`json.loads` succeeds, but the parse is not a dict. -/
def envNonObjState : LlamaEnv :=
  { stateFileExists := true, stateFileRead := .ok (.arr []), proc := procLlama,
    healthResult := .timeout "t", chatResult := .timeout "t", compResult := .timeout "t" }

/-- C2 fails on the code as stated: on the parsable state-file content
`[]` the `pid` field is missing, yet `_read_state` does not return `None`
-- `state.get("pid")` raises an uncaught `AttributeError` (a list has no
`.get`), contradicting the function's own docstring "Returns None if
server not running". -/
theorem claim2_nonobj_state_raises :
    read_state envNonObjState = .error .attributeError ∧
    read_state envNonObjState ≠ .ok none := by
  refine ⟨rfl, ?_⟩
  intro h
  simp [read_state, envNonObjState, Json.pyget] at h

/-! ## Claim C3: the system-prompt merge rule -/

/-- C3. The merge rule of both chat tools: when `system_prompt` is
supplied (truthy, i.e. a non-empty string) and the message list is empty
or does not start with a system-role message, the forwarded message list
is the caller's list with exactly one fresh leading system message;
otherwise the forwarded list is the caller's list unchanged, so
`system_prompt` has no effect on the payload.  The last two conjuncts tie
the forwarded payload of `llama_chat` and `vllm_chat` to the merge. -/
theorem claim3_system_prompt_merge (messages : List PyDict) (sp : Option String) :
    (strTruthy sp = true → needsSystemPrompt messages = true →
      ∃ s, sp = some s ∧ mergeSystemPrompt sp messages =
        [("role", Json.str "system"), ("content", Json.str s)] :: messages) ∧
    (strTruthy sp = true → needsSystemPrompt messages = false →
      mergeSystemPrompt sp messages = messages) ∧
    (strTruthy sp = false → mergeSystemPrompt sp messages = messages) ∧
    (∀ (env : LlamaEnv) (t mt : Json) (state : Json) (url : String),
      read_state env = .ok (some state) →
      get_base_url state = .ok (url, none) →
      (llama_chat env messages t mt sp).2 =
        [HttpCall.postChat (url ++ "/v1/chat/completions")
          { model := none, messages := mergeSystemPrompt sp messages,
            temperature := t, max_tokens := mt, stream := false }]) ∧
    (∀ (venv : VllmEnv) (cache : Option Json) (t mt : Json) (m : String), m ≠ "" →
      (vllm_chat venv cache messages t mt sp (some m)).2.2 =
        [HttpCall.postChat (venv.url ++ "/v1/chat/completions")
          { model := some (Json.str m), messages := mergeSystemPrompt sp messages,
            temperature := t, max_tokens := mt, stream := false }]) := by
  refine ⟨?_, ?_, ?_, ?_, ?_⟩
  · intro hsp hneed
    rcases sp with _ | s
    · simp [strTruthy] at hsp
    · refine ⟨s, rfl, ?_⟩
      simp [strTruthy] at hsp
      simp [mergeSystemPrompt, hsp, hneed]
  · intro hsp hneed
    rcases sp with _ | s
    · rfl
    · simp [strTruthy] at hsp
      simp [mergeSystemPrompt, hsp, hneed]
  · intro hsp
    rcases sp with _ | s
    · rfl
    · simp [strTruthy] at hsp
      simp [mergeSystemPrompt, hsp]
  · intro env t mt state url hread hbase
    have htruthy := (read_state_valid env state hread).1
    simp only [llama_chat, hread, htruthy, hbase]
    rcases hc : env.chatResult with m | m | resp <;> simp [hc]
    split
    · rcases hb : resp.body with e | d <;> simp [hb]
    · simp
  · intro venv cache t mt m hm
    have hbeq : (m == "") = false := by simp [hm]
    simp only [vllm_chat, resolveModel, hbeq, Bool.false_eq_true, if_false]
    rcases hc : venv.chatResult with m2 | m2 | resp <;> simp [hc]
    split
    · rcases hb : resp.body with e | d <;> simp [hb]
    · simp

/-- A user chat message. -/
def userMsg : PyDict := [("role", Json.str "user"), ("content", Json.str "hi")]

/-- The system message produced from the system prompt `"be terse"`. -/
def sysMsgTerse : PyDict := [("role", Json.str "system"), ("content", Json.str "be terse")]

/-- A valid loopback state. -/
def goodState : Json :=
  Json.obj [("pid", Json.num 1234), ("host", Json.str "127.0.0.1"), ("port", Json.num 8080)]

/-- Environment with a valid loopback state and the given HTTP outcome. -/
def goodEnv (r : HttpResult) : LlamaEnv :=
  { stateFileExists := true, stateFileRead := .ok goodState, proc := procLlama,
    healthResult := r, chatResult := r, compResult := r }

/-- C3 witness at the spec's own example: `messages = [user "hi"]`,
`systemPrompt = "be terse"` prepends one system message (also visible in
the forwarded `llama_chat` payload), and a leading system message
disables the parameter. -/
theorem claim3_witness :
    mergeSystemPrompt (some "be terse") [userMsg] = sysMsgTerse :: [userMsg] ∧
    (llama_chat (goodEnv (.timeout "t")) [userMsg] Json.null Json.null (some "be terse")).2 =
      [HttpCall.postChat "http://127.0.0.1:8080/v1/chat/completions"
        { model := none, messages := sysMsgTerse :: [userMsg],
          temperature := Json.null, max_tokens := Json.null, stream := false }] ∧
    mergeSystemPrompt (some "ignored") [sysMsgTerse] = [sysMsgTerse] := by
  obtain ⟨s, hs, heq⟩ := (claim3_system_prompt_merge [userMsg] (some "be terse")).1 rfl rfl
  cases hs
  refine ⟨heq, ?_, ?_⟩
  · have h4 := (claim3_system_prompt_merge [userMsg] (some "be terse")).2.2.2.1
      (goodEnv (.timeout "t")) Json.null Json.null goodState "http://127.0.0.1:8080" rfl rfl
    rw [heq] at h4
    exact h4
  · exact (claim3_system_prompt_merge [sysMsgTerse] (some "ignored")).2.1 rfl rfl

/-! ## Claim C4: every failure is returned as a string -/

/-- An HTTP 200 response whose body is the valid JSON `[]` (an array, not
an object). -/
def resp200ArrBody : HttpResponse :=
  { status := 200, contentType := "application/json", text := "[]", body := .ok (.arr []) }

/-- C4 fails on the code: with a valid running state and an HTTP 200
chat response whose body parses to a JSON array, `data.get("choices", [])`
raises `AttributeError`, which none of the `except` clauses
(`TimeoutException`, `HTTPStatusError`, `RequestError`,
`(json.JSONDecodeError, KeyError)`) catches, so the fault escapes
`llama_chat` instead of being converted to an error string. -/
theorem claim4_unhandled_exception :
    (llama_chat (goodEnv (.success resp200ArrBody)) [userMsg] Json.null Json.null none).1 =
      .error PyExc.attributeError ∧
    ∀ s : String,
      (llama_chat (goodEnv (.success resp200ArrBody)) [userMsg] Json.null Json.null none).1 ≠
        .ok (.str s) := by
  have h1 : (llama_chat (goodEnv (.success resp200ArrBody)) [userMsg]
      Json.null Json.null none).1 = .error PyExc.attributeError := rfl
  refine ⟨h1, ?_⟩
  intro s h
  rw [h1] at h
  exact Except.noConfusion h

/-! ## Claim C5: HTTP 200 with empty choices is the no-response success -/

/-- C5. An HTTP 200 chat response whose parsed body is a dict with an
empty (or absent) `choices` array makes both chat tools return the
literal `"Error: No response from model"` as an ordinary returned string
(the success path of the `try` block, not an exception branch). -/
theorem claim5_empty_choices (env : LlamaEnv) (venv : VllmEnv) (messages : List PyDict)
    (t mt : Json) (sp : Option String) (state : Json) (url : String)
    (cache : Option Json) (m : String) (resp vresp : HttpResponse) (data vdata : Json)
    (hread : read_state env = .ok (some state))
    (hbase : get_base_url state = .ok (url, none))
    (hc : env.chatResult = .success resp) (hst : resp.status = 200)
    (hb : resp.body = .ok data) (hobj : data.isObj = true)
    (hch : data.getD "choices" (.arr []) = .arr [])
    (hm : m ≠ "") (hvc : venv.chatResult = .success vresp) (hvst : vresp.status = 200)
    (hvb : vresp.body = .ok vdata) (hvobj : vdata.isObj = true)
    (hvch : vdata.getD "choices" (.arr []) = .arr []) :
    (llama_chat env messages t mt sp).1 = .ok (.str noResponseMsg) ∧
    (vllm_chat venv cache messages t mt sp (some m)).1 = .ok (.str noResponseMsg) := by
  have htruthy := (read_state_valid env state hread).1
  have hex : extractChatContent data = .ok (.str noResponseMsg) := by
    unfold extractChatContent
    rw [pyget_obj data hobj, hch]
    rfl
  have hvex : extractChatContent vdata = .ok (.str noResponseMsg) := by
    unfold extractChatContent
    rw [pyget_obj vdata hvobj, hvch]
    rfl
  have hbeq : (m == "") = false := by simp [hm]
  constructor
  · simp [llama_chat, hread, htruthy, hbase, hc, hst, is2xx, hb, hex, llamaCatchInvalid]
  · simp [vllm_chat, resolveModel, hbeq, hvc, hvst, is2xx, hvb, hvex, vllmCatchInvalid]

/-- An HTTP 200 response with body `{"choices": []}`. -/
def respEmptyChoices : HttpResponse :=
  { status := 200, contentType := "application/json", text := "x",
    body := .ok (.obj [("choices", Json.arr [])]) }

/-- A vLLM environment at the default `VLLM_URL` with the given HTTP
outcome for every request. -/
def goodVEnv (r : HttpResult) : VllmEnv :=
  { url := "http://localhost:8000", modelsResult := r, chatResult := r, compResult := r }

/-- C5 witness at the spec's example `{"choices":[]}` on both backends. -/
theorem claim5_witness :
    (llama_chat (goodEnv (.success respEmptyChoices)) [userMsg]
        Json.null Json.null none).1 = .ok (.str noResponseMsg) ∧
    (vllm_chat (goodVEnv (.success respEmptyChoices)) none [userMsg]
        Json.null Json.null none (some "m1")).1 = .ok (.str noResponseMsg) :=
  claim5_empty_choices (goodEnv (.success respEmptyChoices))
    (goodVEnv (.success respEmptyChoices)) [userMsg] Json.null Json.null none
    goodState "http://127.0.0.1:8080" none "m1" respEmptyChoices respEmptyChoices
    (.obj [("choices", Json.arr [])]) (.obj [("choices", Json.arr [])])
    rfl rfl rfl rfl rfl rfl rfl (by decide) rfl rfl rfl rfl rfl

/-! ## Claim C6: missing message/content fields -/

/-- An HTTP 200 response with body `{"choices": [{}]}`: valid JSON,
non-empty `choices`, and the first choice lacks the `message` field. -/
def respOneEmptyChoice : HttpResponse :=
  { status := 200, contentType := "application/json", text := "x",
    body := .ok (.obj [("choices", Json.arr [Json.obj []])]) }

/-- C6 is false on the code: on `{"choices":[{}]}` (non-empty choices,
first choice missing its `message` object) `llama_chat` returns the empty
string as a success, not an "Invalid response" error -- the `.get`
defaults swallow the missing fields, so the `KeyError` branch that
produces the invalid-response string is never reached. -/
theorem claim6_counterexample :
    (llama_chat (goodEnv (.success respOneEmptyChoice)) [userMsg]
        Json.null Json.null none).1 = .ok (.str "") ∧
    strContains "" "Invalid response" = false := ⟨rfl, by decide⟩

/-- The chat extraction on a non-empty choices array whose first element
is an object without a `content` under its (possibly defaulted)
`message` object evaluates to the empty string. -/
theorem extractChatContent_defaulted (data c : Json) (rest : List Json)
    (kvs : List (String × Json))
    (hobj : data.isObj = true)
    (hch : data.getD "choices" (.arr []) = .arr (c :: rest))
    (hcobj : c.isObj = true)
    (hmsg : c.getD "message" (.obj []) = .obj kvs)
    (hnc : kvs.lookup "content" = none) :
    extractChatContent data = .ok (.str "") := by
  unfold extractChatContent
  rw [pyget_obj data hobj, hch]
  show (do
    let message ← c.pyget "message" (Json.obj [])
    message.pyget "content" (Json.str "")) = Except.ok (Json.str "")
  rw [pyget_obj c hcobj, hmsg]
  show (Json.obj kvs).pyget "content" (Json.str "") = Except.ok (Json.str "")
  simp [Json.pyget, hnc]

/-- C6 amended: for every HTTP 200 chat response that is valid JSON with
a non-empty `choices` array whose first element is an object from which
the `message` object or its `content` field is missing, both chat tools
return the empty string as an ordinary success result (the missing
`message` defaults to `{}` and the missing `content` to `""`). -/
theorem claim6_amended (env : LlamaEnv) (venv : VllmEnv) (messages : List PyDict)
    (t mt : Json) (sp : Option String) (state : Json) (url : String)
    (cache : Option Json) (m : String) (resp vresp : HttpResponse) (data vdata : Json)
    (c vc : Json) (rest vrest : List Json) (kvs vkvs : List (String × Json))
    (hread : read_state env = .ok (some state))
    (hbase : get_base_url state = .ok (url, none))
    (hc : env.chatResult = .success resp) (hst : resp.status = 200)
    (hb : resp.body = .ok data) (hobj : data.isObj = true)
    (hch : data.getD "choices" (.arr []) = .arr (c :: rest))
    (hcobj : c.isObj = true)
    (hmsg : c.getD "message" (.obj []) = .obj kvs)
    (hnc : kvs.lookup "content" = none)
    (hm : m ≠ "") (hvc : venv.chatResult = .success vresp) (hvst : vresp.status = 200)
    (hvb : vresp.body = .ok vdata) (hvobj : vdata.isObj = true)
    (hvch : vdata.getD "choices" (.arr []) = .arr (vc :: vrest))
    (hvcobj : vc.isObj = true)
    (hvmsg : vc.getD "message" (.obj []) = .obj vkvs)
    (hvnc : vkvs.lookup "content" = none) :
    (llama_chat env messages t mt sp).1 = .ok (.str "") ∧
    (vllm_chat venv cache messages t mt sp (some m)).1 = .ok (.str "") := by
  have htruthy := (read_state_valid env state hread).1
  have hex := extractChatContent_defaulted data c rest kvs hobj hch hcobj hmsg hnc
  have hvex := extractChatContent_defaulted vdata vc vrest vkvs hvobj hvch hvcobj hvmsg hvnc
  have hbeq : (m == "") = false := by simp [hm]
  constructor
  · simp [llama_chat, hread, htruthy, hbase, hc, hst, is2xx, hb, hex, llamaCatchInvalid]
  · simp [vllm_chat, resolveModel, hbeq, hvc, hvst, is2xx, hvb, hvex, vllmCatchInvalid]

/-- C6 amended-claim witness at `{"choices":[{}]}` on both backends. -/
theorem claim6_witness :
    (llama_chat (goodEnv (.success respOneEmptyChoice)) [userMsg]
        Json.null Json.null none).1 = .ok (.str "") ∧
    (vllm_chat (goodVEnv (.success respOneEmptyChoice)) none [userMsg]
        Json.null Json.null none (some "m1")).1 = .ok (.str "") :=
  claim6_amended (goodEnv (.success respOneEmptyChoice))
    (goodVEnv (.success respOneEmptyChoice)) [userMsg] Json.null Json.null none
    goodState "http://127.0.0.1:8080" none "m1" respOneEmptyChoice respOneEmptyChoice
    (.obj [("choices", Json.arr [Json.obj []])]) (.obj [("choices", Json.arr [Json.obj []])])
    (Json.obj []) (Json.obj []) [] [] [] []
    rfl rfl rfl rfl rfl rfl rfl rfl rfl rfl (by decide) rfl rfl rfl rfl rfl rfl rfl rfl

/-! ## Claim C7: default-model resolution -/

/-- C7. `_get_default_model` never serves its answer from the stored
cache (the result is invariant under the cache it starts from), always
issues the catalog GET, returns the first catalog entry's `id` when the
catalog sequence is non-empty, and `None` when it is empty; two calls
observing the same catalog response therefore return the same id. -/
theorem claim7_default_model (env : VllmEnv) :
    (∀ c1 c2 : Option Json,
      (get_default_model env c1).1 = (get_default_model env c2).1) ∧
    (∀ c : Option Json,
      (get_default_model env c).2.2 = [HttpCall.getModels (env.url ++ "/v1/models")]) ∧
    (∀ (c : Option Json) (resp : HttpResponse) (data e : Json) (rest : List Json),
      env.modelsResult = .success resp → resp.status = 200 →
      resp.body = .ok data → data.isObj = true →
      data.getD "data" (.arr []) = .arr (e :: rest) → e.isObj = true →
      (get_default_model env c).1 = .ok (e.getD "id" .null)) ∧
    (∀ (c : Option Json) (resp : HttpResponse) (data : Json),
      env.modelsResult = .success resp → resp.status = 200 →
      resp.body = .ok data → data.isObj = true →
      data.getD "data" (.arr []) = .arr [] →
      (get_default_model env c).1 = .ok .null) := by
  have hgm : ∀ (c : Option Json), (get_models env c).1 = (get_models env none).1 ∧
      (get_models env c).2.2 = [HttpCall.getModels (env.url ++ "/v1/models")] := by
    intro c
    unfold get_models
    rcases h : env.modelsResult with m | m | resp <;> simp [h]
    by_cases hst : resp.status = 200 <;> simp [hst]
    rcases hb : resp.body with e | d <;> simp [hb]
    rcases hp : d.pyget "data" (.arr []) with e | models <;> simp [hp]
  have hstep : ∀ (c : Option Json) (models : Json),
      (get_models env c).1 = .ok models →
      (get_default_model env c).1 =
        (if models.truthy then
          match models.sub0 with
          | .error e => .error e
          | .ok m => m.pyget "id" .null
        else .ok .null) := by
    intro c models h
    unfold get_default_model
    rcases hg : get_models env c with ⟨r, c2, t2⟩
    rw [hg] at h
    have hr : r = .ok models := h
    subst hr
    by_cases ht : models.truthy = true <;> simp [ht]
    rcases hs : models.sub0 with e | mv <;> simp [hs]
    rcases hp : mv.pyget "id" .null with e | v <;> simp [hp]
  have hres : ∀ (c : Option Json) (resp : HttpResponse) (data : Json),
      env.modelsResult = .success resp → resp.status = 200 →
      resp.body = .ok data → data.isObj = true →
      (get_models env c).1 = .ok (data.getD "data" (.arr [])) := by
    intro c resp data h hst hb hobj
    unfold get_models
    simp [h, hst, hb, pyget_obj data hobj]
  refine ⟨?_, ?_, ?_, ?_⟩
  · intro c1 c2
    unfold get_default_model
    rcases hg1 : get_models env c1 with ⟨r1, x1, t1⟩
    rcases hg2 : get_models env c2 with ⟨r2, x2, t2⟩
    have a1 : r1 = (get_models env none).1 := by
      have a := (hgm c1).1; rw [hg1] at a; exact a
    have a2 : r2 = (get_models env none).1 := by
      have a := (hgm c2).1; rw [hg2] at a; exact a
    have he : r1 = r2 := a1.trans a2.symm
    subst he
    rcases r1 with e | models
    · rfl
    · by_cases ht : models.truthy = true <;> simp [ht]
      rcases hs : models.sub0 with e | mv <;> simp [hs]
      rcases hp : mv.pyget "id" .null with e | v <;> simp [hp]
  · intro c
    unfold get_default_model
    rcases hg : get_models env c with ⟨r, c2, t2⟩
    have a : t2 = [HttpCall.getModels (env.url ++ "/v1/models")] := by
      have a := (hgm c).2; rw [hg] at a; exact a
    subst a
    rcases r with e | models
    · rfl
    · by_cases ht : models.truthy = true <;> simp [ht]
      rcases hs : models.sub0 with e | mv <;> simp [hs]
      rcases hp : mv.pyget "id" .null with e | v <;> simp [hp]
  · intro c resp data e rest h hst hb hobj hd heobj
    have h1 := hres c resp data h hst hb hobj
    rw [hd] at h1
    rw [hstep c _ h1]
    simp [Json.truthy, Json.sub0, pyget_obj e heobj]
  · intro c resp data h hst hb hobj hd
    have h1 := hres c resp data h hst hb hobj
    rw [hd] at h1
    rw [hstep c _ h1]
    simp [Json.truthy]

/-- A catalog response `{"data":[{"id":"m1"},{"id":"m2"}]}`. -/
def respModels : HttpResponse :=
  { status := 200, contentType := "application/json", text := "x",
    body := .ok (.obj [("data", Json.arr
      [Json.obj [("id", Json.str "m1")], Json.obj [("id", Json.str "m2")]])]) }

/-- C7 witness at the spec's catalog example: the default model is `m1`,
a stale cache does not change the answer, and the catalog GET is issued. -/
theorem claim7_witness :
    (get_default_model (goodVEnv (.success respModels)) none).1 = .ok (.str "m1") ∧
    (get_default_model (goodVEnv (.success respModels)) (some (Json.str "stale"))).1 =
      (get_default_model (goodVEnv (.success respModels)) none).1 ∧
    (get_default_model (goodVEnv (.success respModels)) none).2.2 =
      [HttpCall.getModels "http://localhost:8000/v1/models"] := by
  have h := claim7_default_model (goodVEnv (.success respModels))
  exact ⟨h.2.2.1 none respModels _ (Json.obj [("id", Json.str "m1")])
      [Json.obj [("id", Json.str "m2")]] rfl rfl rfl rfl rfl rfl,
    h.1 _ _, h.2.1 none⟩

/-! ## Claim C8: the model cache is untouched on failure -/

/-- C8. When the catalog request fails with a network error (timeouts
included: `TimeoutException` is a `RequestError`) or the response body is
not valid JSON, `_get_models` returns the empty sequence and leaves the
cache exactly as it was; conversely the cache changes only when the query
succeeded (HTTP 200 with a parsable body), and then it holds the full
response. -/
theorem claim8_cache_frame (env : VllmEnv) (cache : Option Json) :
    ((∃ m, env.modelsResult = .timeout m) ∨ (∃ m, env.modelsResult = .requestError m) ∨
     (∃ resp m, env.modelsResult = .success resp ∧ resp.body = .error m) →
      get_models env cache =
        (.ok (.arr []), cache, [HttpCall.getModels (env.url ++ "/v1/models")])) ∧
    ((get_models env cache).2.1 ≠ cache →
      ∃ resp data, env.modelsResult = .success resp ∧ resp.status = 200 ∧
        resp.body = .ok data ∧ (get_models env cache).2.1 = some data) := by
  constructor
  · rintro (⟨m, h⟩ | ⟨m, h⟩ | ⟨resp, m, h, hb⟩)
    · unfold get_models; rw [h]
    · unfold get_models; rw [h]
    · unfold get_models
      by_cases hst : resp.status = 200 <;> simp [h, hst, hb]
  · intro hne
    unfold get_models at hne ⊢
    rcases h : env.modelsResult with m | m | resp <;> rw [h] at hne
    · exact absurd rfl hne
    · exact absurd rfl hne
    · by_cases hst : resp.status = 200
      · rcases hb : resp.body with m | data
        · exfalso; apply hne; simp [hst, hb]
        · refine ⟨resp, data, rfl, hst, hb, ?_⟩
          rcases hp : data.pyget "data" (.arr []) with e | models <;>
            simp [hst, hb, hp]
      · exfalso; apply hne; simp [hst]

/-- C8 witness: a connection failure leaves a stale cache in place and
yields the empty model list. -/
theorem claim8_witness :
    get_models (goodVEnv (.requestError "boom")) (some (Json.str "old")) =
      (.ok (.arr []), some (Json.str "old"),
        [HttpCall.getModels "http://localhost:8000/v1/models"]) :=
  (claim8_cache_frame (goodVEnv (.requestError "boom")) (some (Json.str "old"))).1
    (.inr (.inl ⟨"boom", rfl⟩))

/-! ## Claim C9: timeouts are reported with the 120-unit budget -/

/-- C9. When a generation request times out, each of the four generation
tools returns the timeout error string, and that string states the
configured `DEFAULT_TIMEOUT` of 120 time-units. -/
theorem claim9_timeout (env : LlamaEnv) (venv : VllmEnv) (messages : List PyDict)
    (t mt : Json) (sp : Option String) (prompt : String) (stop : Option (List String))
    (cache : Option Json) (m : String) (state : Json) (url : String)
    (tm1 tm2 tm3 tm4 : String)
    (hread : read_state env = .ok (some state))
    (hbase : get_base_url state = .ok (url, none))
    (hct : env.chatResult = .timeout tm1) (hcp : env.compResult = .timeout tm2)
    (hm : m ≠ "") (hvc : venv.chatResult = .timeout tm3)
    (hvp : venv.compResult = .timeout tm4) :
    (llama_chat env messages t mt sp).1 = .ok (.str timeoutErrorMsg) ∧
    (llama_complete env prompt t mt stop).1 = .ok (.str timeoutErrorMsg) ∧
    (vllm_chat venv cache messages t mt sp (some m)).1 = .ok (.str timeoutErrorMsg) ∧
    (vllm_complete venv cache prompt t mt stop (some m)).1 = .ok (.str timeoutErrorMsg) ∧
    strContains timeoutErrorMsg "120" = true := by
  have htruthy := (read_state_valid env state hread).1
  have hbeq : (m == "") = false := by simp [hm]
  refine ⟨?_, ?_, ?_, ?_, by decide⟩
  · simp [llama_chat, hread, htruthy, hbase, hct]
  · simp [llama_complete, hread, htruthy, hbase, hcp]
  · simp [vllm_chat, resolveModel, hbeq, hvc]
  · simp [vllm_complete, resolveModel, hbeq, hvp]

/-- C9 witness: concrete timeouts on a llama chat call and a vLLM
completion call produce the 120-unit timeout message. -/
theorem claim9_witness :
    (llama_chat (goodEnv (.timeout "t")) [userMsg] Json.null Json.null none).1 =
      .ok (.str timeoutErrorMsg) ∧
    (vllm_complete (goodVEnv (.timeout "t")) none "p" Json.null Json.null none
        (some "m1")).1 = .ok (.str timeoutErrorMsg) ∧
    strContains timeoutErrorMsg "120" = true := by
  have h := claim9_timeout (goodEnv (.timeout "t")) (goodVEnv (.timeout "t")) [userMsg]
    Json.null Json.null none "p" none none "m1" goodState "http://127.0.0.1:8080"
    "t" "t" "t" "t" rfl rfl rfl rfl (by decide) rfl rfl
  exact ⟨h.1, h.2.2.2.1, h.2.2.2.2⟩

/-! ## Claim C10: the caller's message list is never mutated -/

/-- `llama_chat` either issues no call or exactly one chat POST whose
payload carries the merged message list. -/
theorem llama_chat_trace_shape (env : LlamaEnv) (messages : List PyDict)
    (t mt : Json) (sp : Option String) :
    (llama_chat env messages t mt sp).2 = [] ∨
    ∃ url, (llama_chat env messages t mt sp).2 =
      [HttpCall.postChat (url ++ "/v1/chat/completions")
        { model := none, messages := mergeSystemPrompt sp messages,
          temperature := t, max_tokens := mt, stream := false }] := by
  unfold llama_chat
  rcases hr : read_state env with e | st
  · left; rfl
  · rcases st with _ | state
    · left; rfl
    · by_cases ht : state.truthy = true
      · rcases hb : get_base_url state with e | p
        · simp [ht, hb]
        · rcases p with ⟨url, oerr⟩
          rcases oerr with _ | err
          · right
            refine ⟨url, ?_⟩
            simp only [ht, if_true, hb]
            rcases hc : env.chatResult with m | m | resp <;> simp [hc]
            split
            · rcases hbody : resp.body with e2 | d <;> simp [hbody]
            · simp
          · simp [ht, hb]
      · simp [ht]

/-- `_get_models` always issues exactly the catalog GET. -/
theorem get_models_trace (env : VllmEnv) (c : Option Json) :
    (get_models env c).2.2 = [HttpCall.getModels (env.url ++ "/v1/models")] := by
  unfold get_models
  rcases h : env.modelsResult with m | m | resp <;> simp [h]
  by_cases hst : resp.status = 200 <;> simp [hst]
  rcases hb : resp.body with e | d <;> simp [hb]
  rcases hp : d.pyget "data" (.arr []) with e | models <;> simp [hp]

/-- `_get_default_model` passes the cache and the trace of `_get_models`
through unchanged. -/
theorem get_default_model_state (env : VllmEnv) (c : Option Json) :
    (get_default_model env c).2.1 = (get_models env c).2.1 ∧
    (get_default_model env c).2.2 = (get_models env c).2.2 := by
  unfold get_default_model
  rcases hg : get_models env c with ⟨r, c2, t2⟩
  rcases r with e | models
  · exact ⟨rfl, rfl⟩
  · by_cases ht : models.truthy = true <;> simp [ht]
    rcases hs : models.sub0 with e | mv <;> simp [hs]
    rcases hp : mv.pyget "id" .null with e | v <;> simp [hp]

/-- Model resolution issues no call (caller-supplied model) or exactly
the catalog GET. -/
theorem resolveModel_trace (env : VllmEnv) (cache : Option Json) (model : Option String) :
    (resolveModel env cache model).2.2 = [] ∨
    (resolveModel env cache model).2.2 = [HttpCall.getModels (env.url ++ "/v1/models")] := by
  have hd : (get_default_model env cache).2.2 = [HttpCall.getModels (env.url ++ "/v1/models")] :=
    (get_default_model_state env cache).2.trans (get_models_trace env cache)
  unfold resolveModel
  rcases model with _ | s
  · right
    rcases hg : get_default_model env cache with ⟨r, c2, t2⟩
    have h2 : t2 = [HttpCall.getModels (env.url ++ "/v1/models")] := by
      rw [hg] at hd; exact hd
    subst h2
    rcases r with e | v
    · rfl
    · by_cases hv : v.truthy = true <;> simp [hv]
  · by_cases hs : s = ""
    · subst hs
      right
      rcases hg : get_default_model env cache with ⟨r, c2, t2⟩
      have h2 : t2 = [HttpCall.getModels (env.url ++ "/v1/models")] := by
        rw [hg] at hd; exact hd
      subst h2
      simp only [beq_self_eq_true, if_true]
      rcases r with e | v
      · rfl
      · by_cases hv : v.truthy = true <;> simp [hv]
    · left
      have hbeq : (s == "") = false := by simp [hs]
      simp [hbeq]

/-- What C10 asserts of one HTTP call: a chat POST must carry the
caller's message list intact (as a suffix of the forwarded list -- the
only change the merge can make is consing one fresh message in front);
other calls carry no messages. -/
def preservesMessages (messages : List PyDict) : HttpCall → Prop
  | .postChat _ p => messages <:+ p.messages
  | _ => True

/-- C10. Both chat tools leave the caller's `messages` list untouched:
the list is rebuilt by concatenation (`[new] + messages`), never mutated,
so every issued call carries the original list as-is (the merge case adds
exactly one leading message in a fresh list). -/
theorem claim10_no_mutation (env : LlamaEnv) (venv : VllmEnv) (cache : Option Json)
    (messages : List PyDict) (t mt : Json) (sp : Option String) (model : Option String) :
    (∀ call ∈ (llama_chat env messages t mt sp).2, preservesMessages messages call) ∧
    (∀ call ∈ (vllm_chat venv cache messages t mt sp model).2.2,
      preservesMessages messages call) := by
  constructor
  · intro call hc
    rcases llama_chat_trace_shape env messages t mt sp with h | ⟨url, h⟩
    · rw [h] at hc; simp at hc
    · rw [h] at hc
      rw [List.mem_singleton] at hc
      subst hc
      exact mergeSystemPrompt_suffix sp messages
  · intro call hc
    unfold vllm_chat at hc
    rcases hr : resolveModel venv cache model with ⟨r, c2, t2⟩
    rw [hr] at hc
    have ht2 : t2 = [] ∨ t2 = [HttpCall.getModels (venv.url ++ "/v1/models")] := by
      have h := resolveModel_trace venv cache model
      rw [hr] at h
      exact h
    have hmem_t2 : call ∈ t2 → preservesMessages messages call := by
      intro hm
      rcases ht2 with h | h <;> rw [h] at hm
      · simp at hm
      · rw [List.mem_singleton] at hm
        subst hm
        trivial
    have hfin : ∀ (u : String) (p : ChatPayload), p.messages = mergeSystemPrompt sp messages →
        call ∈ t2 ++ [HttpCall.postChat u p] → preservesMessages messages call := by
      intro u p hp hm
      rcases List.mem_append.mp hm with h | h
      · exact hmem_t2 h
      · rw [List.mem_singleton] at h
        subst h
        show messages <:+ p.messages
        rw [hp]
        exact mergeSystemPrompt_suffix sp messages
    rcases r with e | r2
    · exact hmem_t2 hc
    · rcases r2 with msg | mv
      · exact hmem_t2 hc
      · rcases hcr : venv.chatResult with m | m | resp <;> simp only [hcr] at hc
        · exact hfin _ _ rfl hc
        · exact hfin _ _ rfl hc
        · split at hc
          · split at hc
            · exact hfin _ _ rfl hc
            · exact hfin _ _ rfl hc
          · exact hfin _ _ rfl hc

/-- C10 witness: the one chat POST issued by a concrete merged
`llama_chat` call carries the caller's `[userMsg]` intact as the suffix
of the forwarded list. -/
theorem claim10_witness :
    preservesMessages [userMsg]
      (HttpCall.postChat "http://127.0.0.1:8080/v1/chat/completions"
        { model := none, messages := sysMsgTerse :: [userMsg],
          temperature := Json.null, max_tokens := Json.null, stream := false }) := by
  have h := (claim10_no_mutation (goodEnv (.timeout "t")) (goodVEnv (.timeout "t")) none
    [userMsg] Json.null Json.null (some "be terse") (some "m1")).1
  have htr : (llama_chat (goodEnv (.timeout "t")) [userMsg] Json.null Json.null
      (some "be terse")).2 =
      [HttpCall.postChat "http://127.0.0.1:8080/v1/chat/completions"
        { model := none, messages := sysMsgTerse :: [userMsg],
          temperature := Json.null, max_tokens := Json.null, stream := false }] := rfl
  exact h _ (by rw [htr]; exact List.mem_singleton.mpr rfl)

end Gateway
